import Mathlib

/-!
Verification of the numerical core of `lunarcalc` (`src/Parallax_calc.js`).

The source is JavaScript operating on IEEE doubles; we embed it shallowly
over the real numbers `ℝ`.  Every definition below mirrors one function or
one local variable of the source, keeping its name and its order of
operations.  Two points where `ℝ` cannot express IEEE semantics are modelled
explicitly:

* the convergence-failure sentinel `NaN` returned by `distVincenty`
  (line 53) is modelled by `Option ℝ` with `none` for `NaN`;
* the guard `isNaN(cos2SigmaM)` (lines 45-47) fires in IEEE arithmetic
  exactly when the division `2*sinU1*sinU2/cosSqAlpha` is `0/0`, i.e. when
  `cosSqAlpha = 0` and `sinU1*sinU2 = 0`; the embedding tests exactly that
  pair of conditions (Lean's convention `x / 0 = 0` would otherwise hide
  the case);
* the final two products of `e_to_m_distance` (lines 99-100) can divide by
  `sin(parallaxtheta_rad) = 0`; `e_to_m_distanceJS` refines those two
  expressions with an explicit IEEE-style value type `JSNum` (finite /
  signed infinity / NaN) so that the degenerate pipeline behaviour is
  expressible.
-/

noncomputable section

namespace LunarCalc

open Real

/-- Source lines 12-15: converts numeric degrees to radians. -/
def toRad (v : ℝ) : ℝ := v * π / 180

/-- WGS-84 semi-major axis, source line 18. -/
def a : ℝ := 6378137

/-- WGS-84 semi-minor axis, source line 19. -/
def b : ℝ := 6356752.3142

/-- WGS-84 flattening, source line 20. -/
def f : ℝ := 1 / 298.257223563

/-- The value the solver actually uses as the "reduced latitude" of a point,
source lines 22-24: `x = Math.atan(1 - f); U = x * Math.tan(toRad(lat))`.
Note the multiplication sits outside the arctangent. -/
def U (lat : ℝ) : ℝ := arctan (1 - f) * tan (toRad lat)

/-- The quantities `distVincenty` fixes before the iteration,
source lines 21-31. -/
structure VC where
  sinU1 : ℝ
  cosU1 : ℝ
  sinU2 : ℝ
  cosU2 : ℝ
  L : ℝ

/-- Source lines 21-31: the fixed data of one `distVincenty` call. -/
def mkVC (lat1 lon1 lat2 lon2 : ℝ) : VC where
  sinU1 := sin (U lat1)
  cosU1 := cos (U lat1)
  sinU2 := sin (U lat2)
  cosU2 := cos (U lat2)
  L := toRad (lon2 - lon1)

/-- Source line 35: `sinSigma` as a function of the current `lambda`. -/
def sinSigma (c : VC) (lambda : ℝ) : ℝ :=
  Real.sqrt ((c.cosU2 * sin lambda) * (c.cosU2 * sin lambda) +
    (c.cosU1 * c.sinU2 - c.sinU1 * c.cosU2 * cos lambda) *
      (c.cosU1 * c.sinU2 - c.sinU1 * c.cosU2 * cos lambda))

/-- Source line 39. -/
def cosSigma (c : VC) (lambda : ℝ) : ℝ :=
  c.sinU1 * c.sinU2 + c.cosU1 * c.cosU2 * cos lambda

/-- The two-argument arctangent, as JavaScript's `Math.atan2`. -/
def atan2 (y x : ℝ) : ℝ :=
  if 0 < x then arctan (y / x)
  else if x < 0 then (if 0 ≤ y then arctan (y / x) + π else arctan (y / x) - π)
  else if 0 < y then π / 2
  else if y < 0 then -(π / 2)
  else 0

/-- Source line 40. -/
def sigma (c : VC) (lambda : ℝ) : ℝ :=
  atan2 (sinSigma c lambda) (cosSigma c lambda)

/-- Source line 41. -/
def sinAlpha (c : VC) (lambda : ℝ) : ℝ :=
  c.cosU1 * c.cosU2 * sin lambda / sinSigma c lambda

/-- Source line 42. -/
def cosSqAlpha (c : VC) (lambda : ℝ) : ℝ :=
  1 - sinAlpha c lambda * sinAlpha c lambda

/-- Source lines 43-47: `cos2SigmaM` together with its `isNaN` guard.  In
IEEE arithmetic `cosSigma - 2*sinU1*sinU2/cosSqAlpha` is NaN exactly when
the division is `0/0`, i.e. when `cosSqAlpha = 0` and `sinU1*sinU2 = 0`
(for `cosSqAlpha = 0` with `sinU1*sinU2 ≠ 0` it would be an infinity, a
state the iteration never reaches, see `cosSqAlpha_eq_zero_sinU_prod`). -/
def cos2SigmaM (c : VC) (lambda : ℝ) : ℝ :=
  if cosSqAlpha c lambda = 0 ∧ c.sinU1 * c.sinU2 = 0 then 0
  else cosSigma c lambda - 2 * c.sinU1 * c.sinU2 / cosSqAlpha c lambda

/-- Source line 44: the correction factor `C`. -/
def C (c : VC) (lambda : ℝ) : ℝ :=
  f / 16 * cosSqAlpha c lambda * (4 + f * (4 - 3 * cosSqAlpha c lambda))

/-- Source line 49: the next value of `lambda`. -/
def nextLambda (c : VC) (lambda : ℝ) : ℝ :=
  c.L + (1 - C c lambda) * f * sinAlpha c lambda *
    (sigma c lambda + C c lambda * sinSigma c lambda *
      (cos2SigmaM c lambda + C c lambda * cosSigma c lambda *
        (-1 + 2 * cos2SigmaM c lambda * cos2SigmaM c lambda)))

/-- Outcome of the do/while loop of source lines 32-50: an early return 0
(coincident points, line 37), exhaustion of the iteration cap (line 53), or
convergence carrying the values of the last body execution that the final
formula of lines 56-60 consumes. -/
inductive VRes where
  | coincident
  | failed
  | done (sinSig cosSig sig cosSqA cos2SM : ℝ)

/-- The values the last loop body leaves for the final distance formula. -/
def converged (c : VC) (lambda : ℝ) : VRes :=
  .done (sinSigma c lambda) (cosSigma c lambda) (sigma c lambda)
    (cosSqAlpha c lambda) (cos2SigmaM c lambda)

/-- The do/while loop of source lines 32-50.  The JavaScript condition
`Math.abs(lambda-lambdaP) > 1e-12 && --iterLimit > 0` with `iterLimit = 100`
lets the body run at most 100 times and reports failure exactly when all 100
body executions miss the tolerance; called with `fuel = 99` the recursion
below runs the body `fuel + 1 = 100` times at most, matching the source. -/
def vloop (c : VC) : ℕ → ℝ → VRes
  | 0, lambda =>
    if sinSigma c lambda = 0 then .coincident
    else if |nextLambda c lambda - lambda| ≤ 1e-12 then converged c lambda
    else .failed
  | n + 1, lambda =>
    if sinSigma c lambda = 0 then .coincident
    else if |nextLambda c lambda - lambda| ≤ 1e-12 then converged c lambda
    else vloop c n (nextLambda c lambda)

/-- Source line 61: `s.toFixed(3)`, rounding to millimetre precision. -/
def round3 (x : ℝ) : ℝ := ((round (x * 1000) : ℤ) : ℝ) / 1000

/-- Source lines 56-61: the final distance from the converged state. -/
def finishDist (sinSig cosSig sig cosSqA cos2SM : ℝ) : ℝ :=
  let uSq := cosSqA * (a * a - b * b) / (b * b)
  let A := 1 + uSq / 16384 * (4096 + uSq * (-768 + uSq * (320 - 175 * uSq)))
  let B := uSq / 1024 * (256 + uSq * (-128 + uSq * (74 - 47 * uSq)))
  let deltaSigma := B * sinSig * (cos2SM + B / 4 * (cosSig * (-1 + 2 * cos2SM * cos2SM) -
    B / 6 * cos2SM * (-3 + 4 * sinSig * sinSig) * (-3 + 4 * cos2SM * cos2SM)))
  round3 (b * A * (sig - deltaSigma))

/-- Source lines 17-62: `distVincenty`.  `none` is the `NaN`
convergence-failure sentinel of line 53; `some 0` the coincident-points
early return of line 37. -/
def distVincenty (lat1 lon1 lat2 lon2 : ℝ) : Option ℝ :=
  let c := mkVC lat1 lon1 lat2 lon2
  match vloop c 99 c.L with
  | .coincident => some 0
  | .failed => none
  | .done sinSig cosSig sig cosSqA cos2SM => some (finishDist sinSig cosSig sig cosSqA cos2SM)

/-- Source lines 66-71: arc length (km) to straight-line chord (km). -/
def distTunnel (arc_length : ℝ) : ℝ :=
  let r : ℝ := 6356.7523142
  let θ := arc_length / r
  Real.sqrt (r ^ 2 + r ^ 2 - 2 * r * r * Real.cos θ)

/-- Source lines 73-84: planar angular separation of two (RA, Dec) pairs. -/
def parallaxAngle (ra1 dec1 ra2 dec2 : ℝ) : ℝ :=
  let deltaRa := if ra2 - ra1 < 0 then (ra2 - ra1) * (-1) else ra2 - ra1
  let deltaDec := if dec1 - dec2 < 0 then (dec1 - dec2) * (-1) else dec1 - dec2
  Real.sqrt (deltaRa ^ 2 + deltaDec ^ 2)

/-- Source lines 87-102: the triangulation solver. -/
def e_to_m_distance (att1 att2 parallaxtheta distance_tunnel : ℝ) : ℝ × ℝ :=
  let ANB := 360 - (360 - att1 - att2 - parallaxtheta)
  let AOB := 360 - (ANB + 90 + 90)
  let OAB := (180 - AOB) / 2
  let OBA := OAB
  let NAB := 90 - OAB
  let NBA := 90 - OBA
  let MAB := NAB + att1
  let MBA := NBA + att2
  let MABrad := toRad MAB
  let MBArad := toRad MBA
  let parallaxtheta_rad := toRad parallaxtheta
  (distance_tunnel * (Real.sin MBArad / Real.sin parallaxtheta_rad),
   distance_tunnel * (Real.sin MABrad / Real.sin parallaxtheta_rad))

/-- The triangulation exactly as the spec (section 4.4) words it: `ANB`,
then `AOB`, then `OAB = OBA` (isosceles), `NAB`/`NBA` as complements,
`MAB = NAB + altitude1`, `MBA = NBA + altitude2`, and the law of sines with
the baseline as reference side; degrees are converted to radians only
immediately before the trigonometric evaluation. -/
def triangulateSpec (altitude1 altitude2 parallaxAngleDeg baselineChordKm : ℝ) : ℝ × ℝ :=
  let ANB := altitude1 + altitude2 + parallaxAngleDeg
  let AOB := 180 - ANB
  let OAB := (180 - AOB) / 2
  let OBA := OAB
  let NAB := 90 - OAB
  let NBA := 90 - OBA
  let MAB := NAB + altitude1
  let MBA := NBA + altitude2
  (baselineChordKm * Real.sin (toRad MBA) / Real.sin (toRad parallaxAngleDeg),
   baselineChordKm * Real.sin (toRad MAB) / Real.sin (toRad parallaxAngleDeg))

/-- An IEEE-double-style value: finite, signed infinity, or NaN.  Used to
express the two divisions of source lines 99-100 faithfully when the
divisor `sin(parallaxtheta_rad)` is zero. -/
inductive JSNum where
  | num (x : ℝ)
  | posInf
  | negInf
  | nan

/-- IEEE division of finite doubles: `x/0` is NaN for `x = 0` and a signed
infinity otherwise. -/
def jsDiv (x y : ℝ) : JSNum :=
  if y = 0 then (if x = 0 then .nan else if 0 < x then .posInf else .negInf)
  else .num (x / y)

/-- IEEE multiplication of a finite double by a `JSNum`: `0 * ±∞` is NaN. -/
def jsMul (k : ℝ) : JSNum → JSNum
  | .num x => .num (k * x)
  | .posInf => if k = 0 then .nan else if 0 < k then .posInf else .negInf
  | .negInf => if k = 0 then .nan else if 0 < k then .negInf else .posInf
  | .nan => .nan

/-- Source lines 87-102 again, with the two final products
`distance_tunnel * (sin …/sin parallaxtheta_rad)` evaluated in IEEE style
(`jsMul`/`jsDiv`), so that a zero divisor is not silenced by Lean's
`x / 0 = 0` convention. -/
def e_to_m_distanceJS (att1 att2 parallaxtheta distance_tunnel : ℝ) : JSNum × JSNum :=
  let ANB := 360 - (360 - att1 - att2 - parallaxtheta)
  let AOB := 360 - (ANB + 90 + 90)
  let OAB := (180 - AOB) / 2
  let OBA := OAB
  let NAB := 90 - OAB
  let NBA := 90 - OBA
  let MAB := NAB + att1
  let MBA := NBA + att2
  let MABrad := toRad MAB
  let MBArad := toRad MBA
  let parallaxtheta_rad := toRad parallaxtheta
  (jsMul distance_tunnel (jsDiv (Real.sin MBArad) (Real.sin parallaxtheta_rad)),
   jsMul distance_tunnel (jsDiv (Real.sin MABrad) (Real.sin parallaxtheta_rad)))

/-- Source lines 104-110: the pipeline.  When the geodesic solver reports
its NaN sentinel (`none`) the poisoned downstream value is left
unmodelled (`none`); otherwise the stages compose as in the source. -/
def distances_to_moon (lat1 long1 ra1 dec1 alt1 lat2 long2 ra2 dec2 alt2 : ℝ) :
    Option (JSNum × JSNum) :=
  (distVincenty lat1 long1 lat2 long2).map fun v =>
    let arcdistance := v / 1000
    let distance_tunnel := distTunnel arcdistance
    let parallaxtheta := parallaxAngle ra1 dec1 ra2 dec2
    e_to_m_distanceJS alt1 alt2 parallaxtheta distance_tunnel

/-- One loop body misses both exits: the coincidence test of line 36 and
the tolerance test of line 50. -/
def missesTol (c : VC) (lambda : ℝ) : Prop :=
  sinSigma c lambda ≠ 0 ∧ 1e-12 < |nextLambda c lambda - lambda|

/-! ### Helper lemmas -/

lemma vloop_coincident (c : VC) (n : ℕ) (lambda : ℝ) (h : sinSigma c lambda = 0) :
    vloop c n lambda = .coincident := by
  cases n <;> simp [vloop, h]

lemma sinSigma_self_zero (c : VC) (h12 : c.sinU1 = c.sinU2) (h12' : c.cosU1 = c.cosU2) :
    sinSigma c 0 = 0 := by
  unfold sinSigma
  rw [Real.sin_zero, Real.cos_zero, h12, h12']
  have h : (c.cosU2 * 0) * (c.cosU2 * 0) +
      (c.cosU2 * c.sinU2 - c.sinU2 * c.cosU2 * 1) *
        (c.cosU2 * c.sinU2 - c.sinU2 * c.cosU2 * 1) = 0 := by ring
  rw [h, Real.sqrt_zero]

lemma distVincenty_self (lat lon : ℝ) : distVincenty lat lon lat lon = some 0 := by
  have hL : (mkVC lat lon lat lon).L = 0 := by
    show toRad (lon - lon) = 0
    unfold toRad; ring
  have hs : sinSigma (mkVC lat lon lat lon) ((mkVC lat lon lat lon).L) = 0 := by
    rw [hL]
    exact sinSigma_self_zero _ rfl rfl
  simp only [distVincenty]
  rw [vloop_coincident _ _ _ hs]

lemma parallaxAngle_eq_abs (ra1 dec1 ra2 dec2 : ℝ) :
    parallaxAngle ra1 dec1 ra2 dec2 = Real.sqrt (|ra2 - ra1| ^ 2 + |dec1 - dec2| ^ 2) := by
  simp only [parallaxAngle]
  have h1 : (if ra2 - ra1 < 0 then (ra2 - ra1) * (-1) else ra2 - ra1) = |ra2 - ra1| := by
    split_ifs with h
    · rw [abs_of_neg h]; ring
    · rw [abs_of_nonneg (not_lt.mp h)]
  have h2 : (if dec1 - dec2 < 0 then (dec1 - dec2) * (-1) else dec1 - dec2) = |dec1 - dec2| := by
    split_ifs with h
    · rw [abs_of_neg h]; ring
    · rw [abs_of_nonneg (not_lt.mp h)]
  rw [h1, h2]

lemma parallaxAngle_self (ra dec : ℝ) : parallaxAngle ra dec ra dec = 0 := by
  rw [parallaxAngle_eq_abs]
  simp

lemma distTunnel_zero : distTunnel 0 = 0 := by
  simp only [distTunnel]
  norm_num [Real.sqrt_eq_zero']

lemma jsMul_zero_jsDiv_zero (y : ℝ) : jsMul 0 (jsDiv y 0) = JSNum.nan := by
  unfold jsDiv
  rw [if_pos rfl]
  split_ifs <;> simp [jsMul]

/-- For every t > 0, |sin t| < t. -/
lemma abs_sin_lt_self {t : ℝ} (ht : 0 < t) : |Real.sin t| < t := by
  rw [abs_lt]
  refine ⟨?_, Real.sin_lt ht⟩
  rcases le_or_lt t π with h | h
  · have h0 := Real.sin_nonneg_of_nonneg_of_le_pi (le_of_lt ht) h
    linarith
  · have h1 : (-1 : ℝ) ≤ Real.sin t := Real.neg_one_le_sin t
    have h2 : (3:ℝ) < π := Real.pi_gt_three
    linarith

/-! ### Claim theorems (first group) -/

/-- Claim C4: `e_to_m_distance` derives its auxiliary angles by the fixed
sequence ANB, AOB, OAB = OBA, NAB/NBA as complements, MAB = NAB + altitude1,
MBA = NBA + altitude2, and returns exactly the pair
[baseline·sin(MBA)/sin(parallaxAngle), baseline·sin(MAB)/sin(parallaxAngle)],
converting degrees to radians only immediately before the trigonometric
evaluation: it coincides with the spec's triangulation on all inputs. -/
theorem c4_triangulation_follows_spec_sequence (att1 att2 parallaxtheta distance_tunnel : ℝ) :
    e_to_m_distance att1 att2 parallaxtheta distance_tunnel =
      triangulateSpec att1 att2 parallaxtheta distance_tunnel := by
  simp only [e_to_m_distance, triangulateSpec, Prod.mk.injEq]
  constructor <;> · rw [mul_div_assoc]; ring_nf

/-- Claim C5: for every point p, geodesicDistance(p, p) returns 0:
the `sinSigma = 0` test fires on the first iteration and 0 is returned as a
success value (`some 0`), not the `NaN` sentinel (`none`). -/
theorem c5_coincident_points_return_zero (lat lon : ℝ) :
    distVincenty lat lon lat lon = some 0 :=
  distVincenty_self lat lon

/-- Claim C7: for every arc length x > 0 the chord
sqrt(2r² - 2r²cos(x/r)) with r = 6356.7523142 is strictly below x
(equality only in the limit x → 0). -/
theorem c7_chord_lt_arc (x : ℝ) (hx : 0 < x) : distTunnel x < x := by
  simp only [distTunnel]
  have key : (6356.7523142:ℝ) ^ 2 + 6356.7523142 ^ 2 -
      2 * 6356.7523142 * 6356.7523142 * Real.cos (x / 6356.7523142) =
      (2 * 6356.7523142 * Real.sin (x / 6356.7523142 / 2)) ^ 2 := by
    have h3 : 2 * (x / 6356.7523142 / 2) = x / 6356.7523142 := by ring
    have h1 := Real.cos_sq (x / 6356.7523142 / 2)
    rw [h3] at h1
    have h2 := Real.sin_sq_add_cos_sq (x / 6356.7523142 / 2)
    nlinarith [h1, h2]
  rw [key, Real.sqrt_sq_eq_abs, abs_mul]
  have h4 : |(2:ℝ) * 6356.7523142| = 2 * 6356.7523142 := abs_of_pos (by norm_num)
  rw [h4]
  have habs : |Real.sin (x / 6356.7523142 / 2)| < x / 6356.7523142 / 2 :=
    abs_sin_lt_self (by positivity)
  have hm := mul_lt_mul_of_pos_left habs (show (0:ℝ) < 2 * 6356.7523142 by norm_num)
  have hxid : 2 * 6356.7523142 * (x / 6356.7523142 / 2) = x := by ring
  rw [hxid] at hm
  exact hm

/-- Witness for C7, at the concrete arc length 1 km. -/
theorem c7_chord_lt_arc_witness : (0:ℝ) < 1 ∧ distTunnel 1 < 1 :=
  ⟨one_pos, c7_chord_lt_arc 1 one_pos⟩

/-- Claim C8: `parallaxAngle` returns exactly
sqrt(|ra2-ra1|² + |dec1-dec2|²); the result is always ≥ 0 and equals 0 on
identical observations. -/
theorem c8_parallax_planar_formula (ra1 dec1 ra2 dec2 : ℝ) :
    parallaxAngle ra1 dec1 ra2 dec2 = Real.sqrt (|ra2 - ra1| ^ 2 + |dec1 - dec2| ^ 2) ∧
    0 ≤ parallaxAngle ra1 dec1 ra2 dec2 ∧
    parallaxAngle ra1 dec1 ra1 dec1 = 0 := by
  refine ⟨parallaxAngle_eq_abs ra1 dec1 ra2 dec2, ?_, parallaxAngle_self ra1 dec1⟩
  rw [parallaxAngle_eq_abs]
  exact Real.sqrt_nonneg _

/-- Claim C10: for two stations with identical GeoPoints and identical
CelestialObservations the pipeline produces a zero baseline chord and a zero
parallax angle, and — because the final step divides by
sin(parallaxAngle) = 0 — both returned components are NaN, not a clean
[0, 0]. -/
theorem c10_identical_stations_nan (lat long ra dec alt : ℝ) :
    (distVincenty lat long lat long).map (fun v => distTunnel (v / 1000)) = some 0 ∧
    parallaxAngle ra dec ra dec = 0 ∧
    distances_to_moon lat long ra dec alt lat long ra dec alt =
      some (JSNum.nan, JSNum.nan) := by
  have h0 : (0:ℝ) / 1000 = 0 := by norm_num
  refine ⟨?_, parallaxAngle_self ra dec, ?_⟩
  · rw [distVincenty_self]
    simp only [Option.map_some']
    rw [h0, distTunnel_zero]
  · unfold distances_to_moon
    rw [distVincenty_self]
    simp only [Option.map_some']
    congr 1
    rw [parallaxAngle_self, h0, distTunnel_zero]
    simp only [e_to_m_distanceJS]
    have hsin0 : Real.sin (toRad 0) = 0 := by
      norm_num [toRad]
    rw [hsin0, jsMul_zero_jsDiv_zero]

/-! ### The convergence-failure characterisation (C3) -/

lemma vloop_failed_iff (c : VC) :
    ∀ (n : ℕ) (lambda : ℝ),
      vloop c n lambda = .failed ↔ ∀ k ≤ n, missesTol c ((nextLambda c)^[k] lambda) := by
  intro n
  induction n with
  | zero =>
    intro lambda
    simp only [vloop]
    by_cases h1 : sinSigma c lambda = 0
    · rw [if_pos h1]
      constructor
      · intro h; exact absurd h (by simp)
      · intro h
        have h0 := h 0 (Nat.le_refl 0)
        simp only [Function.iterate_zero_apply] at h0
        exact absurd h1 h0.1
    · rw [if_neg h1]
      by_cases h2 : |nextLambda c lambda - lambda| ≤ 1e-12
      · rw [if_pos h2]
        constructor
        · intro h; exact absurd h (by simp [converged])
        · intro h
          have h0 := h 0 (Nat.le_refl 0)
          simp only [Function.iterate_zero_apply] at h0
          exact absurd h2 (not_le.mpr h0.2)
      · rw [if_neg h2]
        constructor
        · intro _ k hk
          have hk0 : k = 0 := Nat.le_zero.mp hk
          subst hk0
          simp only [Function.iterate_zero_apply]
          exact ⟨h1, lt_of_not_le h2⟩
        · intro _; rfl
  | succ n ih =>
    intro lambda
    simp only [vloop]
    by_cases h1 : sinSigma c lambda = 0
    · rw [if_pos h1]
      constructor
      · intro h; exact absurd h (by simp)
      · intro h
        have h0 := h 0 (Nat.zero_le _)
        simp only [Function.iterate_zero_apply] at h0
        exact absurd h1 h0.1
    · rw [if_neg h1]
      by_cases h2 : |nextLambda c lambda - lambda| ≤ 1e-12
      · rw [if_pos h2]
        constructor
        · intro h; exact absurd h (by simp [converged])
        · intro h
          have h0 := h 0 (Nat.zero_le _)
          simp only [Function.iterate_zero_apply] at h0
          exact absurd h2 (not_le.mpr h0.2)
      · rw [if_neg h2, ih (nextLambda c lambda)]
        constructor
        · intro h k hk
          cases k with
          | zero =>
            simp only [Function.iterate_zero_apply]
            exact ⟨h1, lt_of_not_le h2⟩
          | succ j =>
            rw [Function.iterate_succ_apply]
            exact h j (Nat.succ_le_succ_iff.mp hk)
        · intro h k hk
          have hx := h (k + 1) (Nat.succ_le_succ hk)
          rwa [Function.iterate_succ_apply] at hx

/-- Claim C3: the Vincenty iteration stops when |λ - λ_prev| ≤ 1e-12 or
after 100 iterations, whichever comes first, and the function returns the
non-numeric sentinel (`none`, modelling NaN) exactly when all 100 body
executions miss the tolerance (and never hit the coincidence exit); in
particular, a numeric distance is never returned in that case. -/
theorem c3_convergence_failure_iff (lat1 lon1 lat2 lon2 : ℝ) :
    distVincenty lat1 lon1 lat2 lon2 = none ↔
      ∀ k < 100, missesTol (mkVC lat1 lon1 lat2 lon2)
        ((nextLambda (mkVC lat1 lon1 lat2 lon2))^[k] (mkVC lat1 lon1 lat2 lon2).L) := by
  have hmain : distVincenty lat1 lon1 lat2 lon2 = none ↔
      vloop (mkVC lat1 lon1 lat2 lon2) 99 (mkVC lat1 lon1 lat2 lon2).L = .failed := by
    simp only [distVincenty]
    cases hv : vloop (mkVC lat1 lon1 lat2 lon2) 99 (mkVC lat1 lon1 lat2 lon2).L <;> simp
  rw [hmain, vloop_failed_iff]
  constructor
  · intro h k hk
    exact h k (by omega)
  · intro h k hk
    exact h k (by omega)

/-! ### The equatorial-line guard (C9) -/

/-- In any state the iteration can reach (sin σ ≠ 0), cos²α = 0 forces
sinU1·sinU2 = 0, so the IEEE division `2*sinU1*sinU2/cosSqAlpha` of source
line 43 is exactly the `0/0` form the `isNaN` guard of lines 45-47
intercepts. -/
lemma cosSqAlpha_eq_zero_sinU_prod (c : VC) (lambda : ℝ)
    (h1 : c.sinU1 ^ 2 + c.cosU1 ^ 2 = 1)
    (hs : sinSigma c lambda ≠ 0) (ha : cosSqAlpha c lambda = 0) :
    c.sinU1 * c.sinU2 = 0 := by
  have hE0 : 0 ≤ (c.cosU2 * Real.sin lambda) * (c.cosU2 * Real.sin lambda) +
      (c.cosU1 * c.sinU2 - c.sinU1 * c.cosU2 * Real.cos lambda) *
        (c.cosU1 * c.sinU2 - c.sinU1 * c.cosU2 * Real.cos lambda) :=
    add_nonneg (mul_self_nonneg _) (mul_self_nonneg _)
  have hEne : (c.cosU2 * Real.sin lambda) * (c.cosU2 * Real.sin lambda) +
      (c.cosU1 * c.sinU2 - c.sinU1 * c.cosU2 * Real.cos lambda) *
        (c.cosU1 * c.sinU2 - c.sinU1 * c.cosU2 * Real.cos lambda) ≠ 0 := by
    intro h
    exact hs (by unfold sinSigma; rw [h, Real.sqrt_zero])
  have hsq : sinSigma c lambda * sinSigma c lambda =
      (c.cosU2 * Real.sin lambda) * (c.cosU2 * Real.sin lambda) +
      (c.cosU1 * c.sinU2 - c.sinU1 * c.cosU2 * Real.cos lambda) *
        (c.cosU1 * c.sinU2 - c.sinU1 * c.cosU2 * Real.cos lambda) := by
    unfold sinSigma
    exact Real.mul_self_sqrt hE0
  -- from cos²α = 0: the numerator squared equals the whole radicand
  have key : (c.cosU1 * c.cosU2 * Real.sin lambda) * (c.cosU1 * c.cosU2 * Real.sin lambda) =
      (c.cosU2 * Real.sin lambda) * (c.cosU2 * Real.sin lambda) +
      (c.cosU1 * c.sinU2 - c.sinU1 * c.cosU2 * Real.cos lambda) *
        (c.cosU1 * c.sinU2 - c.sinU1 * c.cosU2 * Real.cos lambda) := by
    unfold cosSqAlpha sinAlpha at ha
    rw [div_mul_div_comm] at ha
    have hane : sinSigma c lambda * sinSigma c lambda ≠ 0 := by
      rw [hsq]; exact hEne
    rw [sub_eq_zero] at ha
    have hq := (div_eq_one_iff_eq hane).mp ha.symm
    rw [hsq] at hq
    exact hq
  -- the difference radicand − numerator² is a sum of two squares
  have hz : (c.sinU1 * (c.cosU2 * Real.sin lambda)) * (c.sinU1 * (c.cosU2 * Real.sin lambda)) +
      (c.cosU1 * c.sinU2 - c.sinU1 * c.cosU2 * Real.cos lambda) *
        (c.cosU1 * c.sinU2 - c.sinU1 * c.cosU2 * Real.cos lambda) = 0 := by
    linear_combination (c.cosU2 * Real.sin lambda) * (c.cosU2 * Real.sin lambda) * h1 - key
  have hz1 : c.sinU1 * (c.cosU2 * Real.sin lambda) = 0 := by
    refine mul_self_eq_zero.mp ?_
    have hb := mul_self_nonneg (c.cosU1 * c.sinU2 - c.sinU1 * c.cosU2 * Real.cos lambda)
    have hb' := mul_self_nonneg (c.sinU1 * (c.cosU2 * Real.sin lambda))
    linarith [hz]
  have hD : c.cosU1 * c.sinU2 - c.sinU1 * c.cosU2 * Real.cos lambda = 0 := by
    refine mul_self_eq_zero.mp ?_
    have hb := mul_self_nonneg (c.cosU1 * c.sinU2 - c.sinU1 * c.cosU2 * Real.cos lambda)
    have hb' := mul_self_nonneg (c.sinU1 * (c.cosU2 * Real.sin lambda))
    linarith [hz]
  rcases mul_eq_zero.mp hz1 with hs1 | hcs
  · rw [hs1, zero_mul]
  · exfalso
    apply hEne
    rw [hcs, hD]
    norm_num

/-- Claim C9: whenever cos²α evaluates to 0 in a reachable iteration state
(sin σ ≠ 0), the value used for cos(2σm) is forced to 0 rather than a NaN
being propagated. -/
theorem c9_equatorial_guard (lat1 lon1 lat2 lon2 lambda : ℝ)
    (hs : sinSigma (mkVC lat1 lon1 lat2 lon2) lambda ≠ 0)
    (ha : cosSqAlpha (mkVC lat1 lon1 lat2 lon2) lambda = 0) :
    cos2SigmaM (mkVC lat1 lon1 lat2 lon2) lambda = 0 := by
  have hp : (mkVC lat1 lon1 lat2 lon2).sinU1 * (mkVC lat1 lon1 lat2 lon2).sinU2 = 0 :=
    cosSqAlpha_eq_zero_sinU_prod (mkVC lat1 lon1 lat2 lon2) lambda
      (Real.sin_sq_add_cos_sq (U lat1)) hs ha
  unfold cos2SigmaM
  rw [if_pos ⟨ha, hp⟩]

/-- Witness for C9: on the equator (lat1 = lat2 = 0) with λ = π/2 the
hypotheses hold concretely (sin σ = 1, cos²α = 0) and the guard yields 0. -/
theorem c9_equatorial_guard_witness :
    sinSigma (mkVC 0 0 0 0) (π / 2) ≠ 0 ∧
    cosSqAlpha (mkVC 0 0 0 0) (π / 2) = 0 ∧
    cos2SigmaM (mkVC 0 0 0 0) (π / 2) = 0 := by
  have hU : U 0 = 0 := by
    unfold U toRad
    rw [show (0:ℝ) * π / 180 = 0 by ring, Real.tan_zero, mul_zero]
  have hs1 : (mkVC 0 0 0 0).sinU1 = 0 := by
    show Real.sin (U 0) = 0
    rw [hU, Real.sin_zero]
  have hc1 : (mkVC 0 0 0 0).cosU1 = 1 := by
    show Real.cos (U 0) = 1
    rw [hU, Real.cos_zero]
  have hs2 : (mkVC 0 0 0 0).sinU2 = 0 := hs1
  have hc2 : (mkVC 0 0 0 0).cosU2 = 1 := hc1
  have hσ : sinSigma (mkVC 0 0 0 0) (π / 2) = 1 := by
    unfold sinSigma
    rw [hs1, hc1, hs2, hc2, Real.sin_pi_div_two, Real.cos_pi_div_two]
    norm_num
  have hσne : sinSigma (mkVC 0 0 0 0) (π / 2) ≠ 0 := by
    rw [hσ]; norm_num
  have hα : cosSqAlpha (mkVC 0 0 0 0) (π / 2) = 0 := by
    unfold cosSqAlpha sinAlpha
    rw [hσ, hc1, hc2, Real.sin_pi_div_two]
    norm_num
  exact ⟨hσne, hα, c9_equatorial_guard 0 0 0 0 (π / 2) hσne hα⟩

/-! ### Symmetry of the geodesic solver (C6)

Swapping the two input points exchanges U1 with U2 and flips the sign of L;
every per-iteration quantity of the loop body is invariant under this
exchange combined with λ ↦ -λ (sinAlpha and the λ update flip sign, which
the absolute-value tolerance test does not see), so the whole solver is
symmetric. -/

/-- The constants of the swapped call. -/
def VC.swap (c : VC) : VC :=
  ⟨c.sinU2, c.cosU2, c.sinU1, c.cosU1, -c.L⟩

lemma mkVC_swap (lat1 lon1 lat2 lon2 : ℝ) :
    mkVC lat2 lon2 lat1 lon1 = (mkVC lat1 lon1 lat2 lon2).swap := by
  have hL : toRad (lon1 - lon2) = -toRad (lon2 - lon1) := by
    unfold toRad; ring
  simp only [mkVC, VC.swap]
  rw [hL]

lemma sinSigma_swap (c : VC) (h1 : c.sinU1 ^ 2 + c.cosU1 ^ 2 = 1)
    (h2 : c.sinU2 ^ 2 + c.cosU2 ^ 2 = 1) (lambda : ℝ) :
    sinSigma c.swap (-lambda) = sinSigma c lambda := by
  simp only [sinSigma, VC.swap, Real.sin_neg, Real.cos_neg]
  congr 1
  linear_combination (Real.sin lambda) ^ 2 * c.cosU2 ^ 2 * h1 -
    (Real.sin lambda) ^ 2 * c.cosU1 ^ 2 * h2 -
    (c.cosU2 ^ 2 * c.sinU1 ^ 2 - c.cosU1 ^ 2 * c.sinU2 ^ 2) * (Real.sin_sq_add_cos_sq lambda)

lemma cosSigma_swap (c : VC) (lambda : ℝ) :
    cosSigma c.swap (-lambda) = cosSigma c lambda := by
  simp only [cosSigma, VC.swap, Real.cos_neg]
  ring

lemma sigma_swap (c : VC) (h1 : c.sinU1 ^ 2 + c.cosU1 ^ 2 = 1)
    (h2 : c.sinU2 ^ 2 + c.cosU2 ^ 2 = 1) (lambda : ℝ) :
    sigma c.swap (-lambda) = sigma c lambda := by
  unfold sigma
  rw [sinSigma_swap c h1 h2 lambda, cosSigma_swap c lambda]

lemma sinAlpha_swap (c : VC) (h1 : c.sinU1 ^ 2 + c.cosU1 ^ 2 = 1)
    (h2 : c.sinU2 ^ 2 + c.cosU2 ^ 2 = 1) (lambda : ℝ) :
    sinAlpha c.swap (-lambda) = -sinAlpha c lambda := by
  unfold sinAlpha
  rw [sinSigma_swap c h1 h2 lambda]
  simp only [VC.swap, Real.sin_neg]
  ring

lemma cosSqAlpha_swap (c : VC) (h1 : c.sinU1 ^ 2 + c.cosU1 ^ 2 = 1)
    (h2 : c.sinU2 ^ 2 + c.cosU2 ^ 2 = 1) (lambda : ℝ) :
    cosSqAlpha c.swap (-lambda) = cosSqAlpha c lambda := by
  unfold cosSqAlpha
  rw [sinAlpha_swap c h1 h2 lambda]
  ring

lemma cos2SigmaM_swap (c : VC) (h1 : c.sinU1 ^ 2 + c.cosU1 ^ 2 = 1)
    (h2 : c.sinU2 ^ 2 + c.cosU2 ^ 2 = 1) (lambda : ℝ) :
    cos2SigmaM c.swap (-lambda) = cos2SigmaM c lambda := by
  unfold cos2SigmaM
  rw [cosSqAlpha_swap c h1 h2 lambda, cosSigma_swap c lambda]
  simp only [VC.swap]
  have hcond : (c.sinU2 * c.sinU1 = 0) ↔ (c.sinU1 * c.sinU2 = 0) := by
    rw [mul_comm]
  exact if_congr (and_congr Iff.rfl hcond) rfl (by ring)

lemma C_swap (c : VC) (h1 : c.sinU1 ^ 2 + c.cosU1 ^ 2 = 1)
    (h2 : c.sinU2 ^ 2 + c.cosU2 ^ 2 = 1) (lambda : ℝ) :
    C c.swap (-lambda) = C c lambda := by
  unfold C
  rw [cosSqAlpha_swap c h1 h2 lambda]

lemma nextLambda_swap (c : VC) (h1 : c.sinU1 ^ 2 + c.cosU1 ^ 2 = 1)
    (h2 : c.sinU2 ^ 2 + c.cosU2 ^ 2 = 1) (lambda : ℝ) :
    nextLambda c.swap (-lambda) = -nextLambda c lambda := by
  unfold nextLambda
  rw [C_swap c h1 h2 lambda, sinAlpha_swap c h1 h2 lambda, sigma_swap c h1 h2 lambda,
    sinSigma_swap c h1 h2 lambda, cos2SigmaM_swap c h1 h2 lambda, cosSigma_swap c lambda]
  have hL : c.swap.L = -c.L := rfl
  rw [hL]
  ring

lemma converged_swap (c : VC) (h1 : c.sinU1 ^ 2 + c.cosU1 ^ 2 = 1)
    (h2 : c.sinU2 ^ 2 + c.cosU2 ^ 2 = 1) (lambda : ℝ) :
    converged c.swap (-lambda) = converged c lambda := by
  unfold converged
  rw [sinSigma_swap c h1 h2 lambda, cosSigma_swap c lambda, sigma_swap c h1 h2 lambda,
    cosSqAlpha_swap c h1 h2 lambda, cos2SigmaM_swap c h1 h2 lambda]

lemma vloop_swap (c : VC) (h1 : c.sinU1 ^ 2 + c.cosU1 ^ 2 = 1)
    (h2 : c.sinU2 ^ 2 + c.cosU2 ^ 2 = 1) :
    ∀ (n : ℕ) (lambda : ℝ), vloop c.swap n (-lambda) = vloop c n lambda := by
  intro n
  induction n with
  | zero =>
    intro lambda
    simp only [vloop]
    rw [sinSigma_swap c h1 h2 lambda, nextLambda_swap c h1 h2 lambda,
      converged_swap c h1 h2 lambda,
      show -nextLambda c lambda - -lambda = -(nextLambda c lambda - lambda) by ring, abs_neg]
  | succ n ih =>
    intro lambda
    simp only [vloop]
    rw [sinSigma_swap c h1 h2 lambda, nextLambda_swap c h1 h2 lambda,
      converged_swap c h1 h2 lambda,
      show -nextLambda c lambda - -lambda = -(nextLambda c lambda - lambda) by ring, abs_neg,
      ih (nextLambda c lambda)]

/-- Claim C6: geodesicDistance is symmetric in its arguments:
distVincenty(p1, p2) = distVincenty(p2, p1) for every pair of points. -/
theorem c6_geodesic_symmetric (lat1 lon1 lat2 lon2 : ℝ) :
    distVincenty lat1 lon1 lat2 lon2 = distVincenty lat2 lon2 lat1 lon1 := by
  have h1 : (mkVC lat1 lon1 lat2 lon2).sinU1 ^ 2 + (mkVC lat1 lon1 lat2 lon2).cosU1 ^ 2 = 1 :=
    Real.sin_sq_add_cos_sq (U lat1)
  have h2 : (mkVC lat1 lon1 lat2 lon2).sinU2 ^ 2 + (mkVC lat1 lon1 lat2 lon2).cosU2 ^ 2 = 1 :=
    Real.sin_sq_add_cos_sq (U lat2)
  simp only [distVincenty]
  rw [mkVC_swap lat1 lon1 lat2 lon2,
    show (mkVC lat1 lon1 lat2 lon2).swap.L = -(mkVC lat1 lon1 lat2 lon2).L from rfl,
    vloop_swap (mkVC lat1 lon1 lat2 lon2) h1 h2 99 ((mkVC lat1 lon1 lat2 lon2).L)]

/-! ### The reduced-latitude transcription bug (C1, C2)

Vincenty's method (and the spec) reduce each latitude via
`U = atan((1-f)·tan φ)`; source lines 22-24 compute
`x = Math.atan(1-f); U = x * Math.tan(toRad(lat))`, i.e.
`atan(1-f) · tan φ`.  The two differ: the product form is unbounded in φ
(it exceeds π/2 already at 85°), while a true reduced latitude never
reaches π/2. -/

lemma arctan_one_sub_f_gt_pi_div_six : π / 6 < arctan (1 - f) := by
  have hsq3 : Real.sqrt 3 ^ 2 = 3 := Real.sq_sqrt (by norm_num)
  have hsq3pos : 0 < Real.sqrt 3 := Real.sqrt_pos.mpr (by norm_num)
  have htan6 : Real.tan (π / 6) = 1 / Real.sqrt 3 := by
    rw [Real.tan_eq_sin_div_cos, Real.sin_pi_div_six, Real.cos_pi_div_six]
    rw [div_div_div_comm]
    norm_num
  have hlt : 1 / Real.sqrt 3 < 1 - f := by
    rw [div_lt_iff₀ hsq3pos]
    have h17 : (1.7:ℝ) < Real.sqrt 3 := by
      nlinarith [hsq3, hsq3pos]
    unfold f
    nlinarith [h17]
  have harc := Real.arctan_strictMono hlt
  rwa [← htan6, Real.arctan_tan (by linarith [Real.pi_pos]) (by linarith [Real.pi_pos])]
    at harc

lemma tan_toRad_85_gt_three : (3:ℝ) < Real.tan (toRad 85) := by
  have hφ : toRad 85 = π / 2 - π / 36 := by unfold toRad; ring
  rw [hφ, Real.tan_eq_sin_div_cos, Real.sin_pi_div_two_sub, Real.cos_pi_div_two_sub]
  have hspos : 0 < Real.sin (π / 36) :=
    Real.sin_pos_of_pos_of_lt_pi (by positivity) (by linarith [Real.pi_pos])
  have hslt : Real.sin (π / 36) < π / 36 := Real.sin_lt (by positivity)
  have hpi2 : π < 3.141593 := Real.pi_lt_d6
  have hcos : Real.sqrt 3 / 2 < Real.cos (π / 36) := by
    have hc := Real.cos_lt_cos_of_nonneg_of_le_pi
      (show (0:ℝ) ≤ π / 36 by positivity)
      (show π / 6 ≤ π by linarith [Real.pi_pos])
      (show π / 36 < π / 6 by linarith [Real.pi_pos])
    rwa [Real.cos_pi_div_six] at hc
  have hsqrt3 : (1.7:ℝ) < Real.sqrt 3 := by
    nlinarith [Real.sq_sqrt (show (0:ℝ) ≤ 3 by norm_num), Real.sqrt_nonneg 3]
  rw [lt_div_iff₀ hspos]
  linarith [hslt, hcos, hsqrt3, hpi2]

/-- Claim C1 is false of the code (the spec states Vincenty's formula, the
code transposed it): at latitude 85 the value the solver uses,
`U 85 = atan(1-f)·tan(rad 85)`, exceeds π/2, whereas
`atan((1-f)·tan(rad 85))` — the reduced latitude of the spec — is always
below π/2; the two are not equal. -/
theorem c1_reduced_latitude_bug :
    U 85 ≠ arctan ((1 - f) * Real.tan (toRad 85)) := by
  have hU : π / 2 < U 85 := by
    unfold U
    have h6 := arctan_one_sub_f_gt_pi_div_six
    have h3 := tan_toRad_85_gt_three
    nlinarith [h6, h3, Real.pi_pos]
  have hR : arctan ((1 - f) * Real.tan (toRad 85)) < π / 2 :=
    Real.arctan_lt_pi_div_two _
  intro h
  rw [h] at hU
  linarith

lemma tan_three_quarters_lt : Real.tan 0.75 < 0.992 := by
  have habs : |(0.75:ℝ)| = 0.75 := abs_of_nonneg (by norm_num)
  have hs := Real.sin_bound (x := 0.75) (by rw [habs]; norm_num)
  have hc := Real.cos_bound (x := 0.75) (by rw [habs]; norm_num)
  rw [habs] at hs hc
  have hsin_le : Real.sin 0.75 ≤ 0.6961669921875 := by
    have h2 := (abs_le.mp hs).2
    norm_num at h2 ⊢
    linarith
  have hcos_ge : (0.7022705078125:ℝ) ≤ Real.cos 0.75 := by
    have h2 := (abs_le.mp hc).1
    norm_num at h2 ⊢
    linarith
  have hcos_pos : (0:ℝ) < Real.cos 0.75 := by linarith
  rw [Real.tan_eq_sin_div_cos, div_lt_iff₀ hcos_pos]
  linarith [hsin_le, hcos_ge]

lemma arctan_one_sub_f_gt_three_quarters : (0.75:ℝ) < arctan (1 - f) := by
  have h1 : Real.tan 0.75 < 1 - f := by
    have h992 : (0.992:ℝ) < 1 - f := by unfold f; norm_num
    linarith [tan_three_quarters_lt]
  have hb1 : -(π / 2) < (0.75:ℝ) := by linarith [Real.pi_pos]
  have hb2 : (0.75:ℝ) < π / 2 := by linarith [Real.pi_gt_d6]
  have harc := Real.arctan_strictMono h1
  rwa [Real.arctan_tan hb1 hb2] at harc

lemma tan_three_pi_div_ten_gt : (1.365:ℝ) < Real.tan (3 * π / 10) := by
  have h310 : 3 * π / 10 = π / 2 - π / 5 := by ring
  rw [h310, Real.tan_eq_sin_div_cos, Real.sin_pi_div_two_sub, Real.cos_pi_div_two_sub]
  have hsinpos : 0 < Real.sin (π / 5) :=
    Real.sin_pos_of_pos_of_lt_pi (by positivity) (by linarith [Real.pi_pos])
  have hcos5 : Real.cos (π / 5) = (1 + Real.sqrt 5) / 4 := Real.cos_pi_div_five
  have hsq : Real.sin (π / 5) ^ 2 = 1 - Real.cos (π / 5) ^ 2 := Real.sin_sq (π / 5)
  have h5 : Real.sqrt 5 ^ 2 = 5 := Real.sq_sqrt (by norm_num)
  have h5lb : (2.236:ℝ) < Real.sqrt 5 := by
    nlinarith [h5, Real.sqrt_nonneg 5]
  have hcpos : 0 < Real.cos (π / 5) := by
    rw [hcos5]; positivity
  have hkey : 1.365 ^ 2 * Real.sin (π / 5) ^ 2 < Real.cos (π / 5) ^ 2 := by
    rw [hsq, hcos5]
    nlinarith [h5, h5lb]
  rw [lt_div_iff₀ hsinpos]
  nlinarith [hkey, hsinpos, hcpos]

/-- Claim C2 is false of the code: the internal reduced latitude is wrong
already at the test vector's second point.  `U 58.64402`, the value the
solver uses, strictly exceeds the radian latitude rad(58.64402), while
Vincenty's reduced latitude `atan((1-f)·tan(rad 58.64402))` — the quantity
the spec's algorithm (whose classic result is 969954.166 m) feeds the
iteration — lies strictly below it.  (Numerically the code returns
2233875.679 m on the full test vector, not ≈ 969954.166 m.) -/
theorem c2_test_vector_reduced_latitude_divergence :
    arctan ((1 - f) * Real.tan (toRad 58.64402)) < toRad 58.64402 ∧
      toRad 58.64402 < U 58.64402 := by
  have hpi2 : π < 3.141593 := Real.pi_lt_d6
  have hφpos : 0 < toRad 58.64402 := by unfold toRad; positivity
  have hφlt : toRad 58.64402 < π / 2 := by
    unfold toRad; nlinarith [Real.pi_pos]
  have htanpos : 0 < Real.tan (toRad 58.64402) :=
    Real.tan_pos_of_pos_of_lt_pi_div_two hφpos hφlt
  constructor
  · have hlt : (1 - f) * Real.tan (toRad 58.64402) < Real.tan (toRad 58.64402) := by
      have hf : (0:ℝ) < f := by unfold f; norm_num
      nlinarith [htanpos, hf]
    have harc := Real.arctan_strictMono hlt
    rwa [Real.arctan_tan (by linarith) hφlt] at harc
  · have hmono : Real.tan (3 * π / 10) < Real.tan (toRad 58.64402) := by
      apply Real.tan_lt_tan_of_nonneg_of_lt_pi_div_two (by positivity) hφlt
      unfold toRad; nlinarith [Real.pi_pos]
    have h1365 := tan_three_pi_div_ten_gt
    have h075 := arctan_one_sub_f_gt_three_quarters
    have hφup : toRad 58.64402 < 1.02375 := by
      unfold toRad; nlinarith [hpi2]
    unfold U
    nlinarith [hmono, h1365, h075, hφup, htanpos]

end LunarCalc

end
